import Mathlib

/-
  Verification of the Goodoo framework against its specification.

  Shallow embedding of the relevant Go source:
  - goodoo/logging (levels.go, logger.go, config part): log levels,
    per-logger level resolution, emission gate.
  - goodoo/http/session.go: sessions, dirty tracking, filesystem store.
  - goodoo/database connection pool: Borrow / Return / idle cleanup.
  - goodoo/api registry: method registration, decorators, dispatch.
  - goodoo/handlers/api.go: HTTP status mapping for dispatcher responses.

  Conventions: Go time.Time is modelled as Nat (seconds); Go maps are
  modelled as association lists (assignment replaces the bound value in
  place); Go interface{} JSON-serialisable values are modelled by GoValue;
  I/O that always matters only by success/failure at the granularity of
  the claims (ping of a live connection, opening a new connection) is
  modelled as succeeding.
-/

namespace Goodoo

/-! ## Logging: levels and per-logger level resolution (levels.go, config) -/

/-- LogLevel from logging (part_001): DEBUG, INFO, WARNING, ERROR, CRITICAL. -/
inductive LogLevel
  | debug
  | info
  | warning
  | error
  | critical
deriving DecidableEq, Repr

/-- GetLogLevelNumericValue from levels.go: DEBUG=10, INFO=20, WARNING=30,
ERROR=40, CRITICAL=50. -/
def GetLogLevelNumericValue : LogLevel → Nat
  | .debug => 10
  | .info => 20
  | .warning => 30
  | .error => 40
  | .critical => 50

/-- CompareLogLevels from levels.go: level1 should be logged against level2
iff its numeric value is greater or equal. -/
def CompareLogLevels (level1 level2 : LogLevel) : Bool :=
  decide (GetLogLevelNumericValue level1 ≥ GetLogLevelNumericValue level2)

/-- LoggerLevels from the logging config: a Go map from logger name to
configured level, modelled as a partial function. -/
abbrev LoggerLevels : Type := String → Option LogLevel

/-- The prefix-walking loop of LoggerLevels.GetLoggerLevel:
for i := len(parts)-1; i > 0; i-- it looks up strings.Join(parts[:i], "."),
first hit wins.  The Nat argument is the current loop index. -/
def lookupDottedAncestors (ll : LoggerLevels) (parts : List String) : Nat → Option LogLevel
  | 0 => none
  | i + 1 =>
    match ll (String.intercalate "." (parts.take (i + 1))) with
    | some level => some level
    | none => lookupDottedAncestors ll parts i

/-- LoggerLevels.GetLoggerLevel from the logging config: exact name first,
then progressively shorter dotted prefixes, then the root logger "",
defaulting to INFO. -/
def GetLoggerLevel (ll : LoggerLevels) (name : String) : LogLevel :=
  match ll name with
  | some level => level
  | none =>
    let parts := name.splitOn "."
    match lookupDottedAncestors ll parts (parts.length - 1) with
    | some level => level
    | none =>
      match ll "" with
      | some level => level
      | none => .info

/-- LoggerLevels.ShouldLog from the logging config. -/
def ShouldLog (ll : LoggerLevels) (loggerName : String) (level : LogLevel) : Bool :=
  CompareLogLevels level (GetLoggerLevel ll loggerName)

/-- The emission gate of Logger.log (logger.go): a record is built and passed
to the handlers iff ShouldLog holds for the logger name and message level. -/
def logEmits (ll : LoggerLevels) (name : String) (level : LogLevel) : Bool :=
  ShouldLog ll name level

/-- Spec-side resolution candidates, written from the specification text:
the exact name, then each progressively shorter dotted prefix, then the
root entry (empty name). -/
def specResolutionCandidates (name : String) : List String :=
  let parts := name.splitOn "."
  name ::
    (((List.range (parts.length - 1)).reverse.map
      (fun i => String.intercalate "." (parts.take (i + 1)))) ++ [""])

/-- Spec-side level resolution (resolve_level from the specification):
first hit among the candidates wins, default INFO when no entry matches. -/
def resolve_level (ll : LoggerLevels) (name : String) : LogLevel :=
  ((specResolutionCandidates name).findSome? ll).getD .info

theorem lookupDottedAncestors_eq_findSome (ll : LoggerLevels) (parts : List String) :
    ∀ n, lookupDottedAncestors ll parts n =
      ((List.range n).reverse.map
        (fun i => String.intercalate "." (parts.take (i + 1)))).findSome? ll
  | 0 => rfl
  | n + 1 => by
    rw [List.range_succ, List.reverse_append]
    simp only [List.reverse_cons, List.reverse_nil, List.nil_append, List.cons_append,
      List.map_cons, List.findSome?_cons, List.singleton_append]
    cases h : ll (String.intercalate "." (parts.take (n + 1))) with
    | some level => simp [lookupDottedAncestors, h]
    | none => simp [lookupDottedAncestors, h, lookupDottedAncestors_eq_findSome ll parts n]

theorem findSome_root_getD (ll : LoggerLevels) (l : List String) :
    ((l ++ [""]).findSome? ll).getD LogLevel.info =
      match l.findSome? ll with
      | some level => level
      | none =>
        match ll "" with
        | some level => level
        | none => LogLevel.info := by
  induction l with
  | nil => cases hr : ll "" <;> simp [hr]
  | cons a t ih =>
    cases ha : ll a <;> simp [List.findSome?_cons, ha, ih]

theorem GetLoggerLevel_eq_resolve_level (ll : LoggerLevels) (name : String) :
    GetLoggerLevel ll name = resolve_level ll name := by
  unfold GetLoggerLevel resolve_level specResolutionCandidates
  dsimp only
  rw [List.findSome?_cons]
  cases hx : ll name with
  | some level => rfl
  | none =>
    rw [lookupDottedAncestors_eq_findSome]
    exact (findSome_root_getD ll _).symm

/-- C2: for every logger name N and message level L, a record is emitted iff
the numeric value of L is at least that of the resolved level of N, where
resolution tries the exact name, then each progressively shorter dotted
prefix, then the root entry, the first hit winning, defaulting to INFO. -/
theorem c2_emitted_iff_level_ge_resolved (ll : LoggerLevels) (name : String) (level : LogLevel) :
    logEmits ll name level = true ↔
      GetLogLevelNumericValue level ≥ GetLogLevelNumericValue (resolve_level ll name) := by
  unfold logEmits ShouldLog CompareLogLevels
  rw [GetLoggerLevel_eq_resolve_level]
  exact decide_eq_true_iff

/-! ## Go values and canonical JSON (session.go: interface\x7b\x7d data, deepEqual) -/

/-- A JSON-serialisable Go interface value, as stored in session data and
passed as API arguments.  int and str are kept apart because Session.Set
and Session.Get use Go type assertions on them. -/
inductive GoValue
  | null
  | bool (b : Bool)
  | int (n : Int)
  | str (s : String)
  | arr (elems : List GoValue)
  | map (fields : List (String × GoValue))

mutual
/-- Structural equality of JSON trees (equality of serialised texts on
canonical forms). -/
def GoValue.beq : GoValue → GoValue → Bool
  | .null, .null => true
  | .bool a, .bool b => a == b
  | .int a, .int b => a == b
  | .str a, .str b => a == b
  | .arr a, .arr b => beqValueList a b
  | .map a, .map b => beqFieldList a b
  | _, _ => false

def beqValueList : List GoValue → List GoValue → Bool
  | [], [] => true
  | x :: xs, y :: ys => x.beq y && beqValueList xs ys
  | _, _ => false

def beqFieldList : List (String × GoValue) → List (String × GoValue) → Bool
  | [], [] => true
  | (k, v) :: xs, (k2, v2) :: ys => k == k2 && v.beq v2 && beqFieldList xs ys
  | _, _ => false
end

/-- Insertion into a key-sorted field list (by string order). -/
def insertField (p : String × GoValue) : List (String × GoValue) → List (String × GoValue)
  | [] => [p]
  | q :: rest => if p.1 ≤ q.1 then p :: q :: rest else q :: insertField p rest

/-- Sort a field list by key, as Go json.Marshal does for maps. -/
def sortFields : List (String × GoValue) → List (String × GoValue)
  | [] => []
  | p :: rest => insertField p (sortFields rest)

mutual
/-- The canonical JSON form of a value: object keys sorted recursively.
json.Marshal produces equal texts for two values exactly when their
canonical forms coincide. -/
def GoValue.canonical : GoValue → GoValue
  | .null => .null
  | .bool b => .bool b
  | .int n => .int n
  | .str s => .str s
  | .arr xs => .arr (canonicalList xs)
  | .map fs => .map (sortFields (canonicalFields fs))

def canonicalList : List GoValue → List GoValue
  | [] => []
  | x :: xs => x.canonical :: canonicalList xs

def canonicalFields : List (String × GoValue) → List (String × GoValue)
  | [] => []
  | (k, v) :: fs => (k, v.canonical) :: canonicalFields fs
end

/-- deepEqual from session.go: equality of the json.Marshal texts of the two
values, i.e. equality of canonical JSON forms. -/
def deepEqual (a b : GoValue) : Bool :=
  a.canonical.beq b.canonical

/-- Type assertion value.(string). -/
def GoValue.asString : GoValue → Option String
  | .str s => some s
  | _ => none

/-- Type assertion value.(int). -/
def GoValue.asInt : GoValue → Option Int
  | .int n => some n
  | _ => none

def GoValue.isNull : GoValue → Bool
  | .null => true
  | _ => false

/-! ## Association-list model of Go maps -/

/-- Go map read m[k]. -/
def lookupKey {α : Type} (m : List (String × α)) (k : String) : Option α :=
  match m.find? (fun p => p.1 == k) with
  | some p => some p.2
  | none => none

/-- Go map assignment m[k] = v: replaces the bound value, else appends. -/
def setKey {α : Type} : List (String × α) → String → α → List (String × α)
  | [], k, v => [(k, v)]
  | (k0, v0) :: rest, k, v =>
    if k0 == k then (k, v) :: rest else (k0, v0) :: setKey rest k v

/-- Go delete(m, k). -/
def delKey {α : Type} (m : List (String × α)) (k : String) : List (String × α) :=
  m.filter (fun p => p.1 != k)

theorem lookupKey_setKey_self {α : Type} (m : List (String × α)) (k : String) (v : α) :
    lookupKey (setKey m k v) k = some v := by
  induction m with
  | nil => simp [setKey, lookupKey, List.find?]
  | cons p rest ih =>
    obtain ⟨k0, v0⟩ := p
    by_cases h : k0 = k
    · simp [setKey, lookupKey, List.find?, h]
    · simpa [setKey, lookupKey, List.find?, h] using ih

/-! ## Sessions (goodoo/http/session.go) -/

/-- getDefaultContext from session.go. -/
def getDefaultContext : List (String × GoValue) :=
  [("lang", .str "en_US"), ("tz", .str "UTC"), ("timezone", .str "UTC")]

/-- Session from session.go.  Times are modelled as Nat. -/
structure Session where
  sid : String
  data : List (String × GoValue)
  isDirty : Bool
  isNew : Bool
  shouldRotate : Bool
  canSave : Bool
  createdAt : Nat
  lastAccessed : Nat
  dbName : String
  userId : Int
  login : String
  context : List (String × GoValue)

/-- NewSession from session.go. -/
def NewSession (sid : String) (now : Nat) : Session :=
  { sid := sid, data := [], isDirty := false, isNew := true, shouldRotate := false,
    canSave := true, createdAt := now, lastAccessed := now,
    dbName := "", userId := 0, login := "", context := getDefaultContext }

/-- Session.Get: special keys route to the typed fields; the Bool is the Go
second return value.  The zero interface value is modelled as null. -/
def Session.Get (s : Session) (key : String) : GoValue × Bool :=
  if key == "db_name" || key == "db" then (.str s.dbName, s.dbName != "")
  else if key == "user_id" || key == "uid" then (.int s.userId, s.userId != 0)
  else if key == "login" then (.str s.login, s.login != "")
  else
    match lookupKey s.data key with
    | some v => (v, true)
    | none => (.null, false)

/-- Session.Set from session.go: special keys set the typed field and mark
dirty when the type assertion succeeds (returning early otherwise); other
keys compare the existing value with deepEqual before marking dirty and
always store the value. -/
def Session.Set (s : Session) (key : String) (value : GoValue) : Session :=
  if key == "db_name" || key == "db" then
    match value.asString with
    | some str => { s with dbName := str, isDirty := true }
    | none => s
  else if key == "user_id" || key == "uid" then
    match value.asInt with
    | some id => { s with userId := id, isDirty := true }
    | none => s
  else if key == "login" then
    match value.asString with
    | some str => { s with login := str, isDirty := true }
    | none => s
  else
    let dirty :=
      match lookupKey s.data key with
      | some existing => if deepEqual existing value then s.isDirty else true
      | none => true
    { s with data := setKey s.data key value, isDirty := dirty }

/-- Session.Delete from session.go. -/
def Session.Delete (s : Session) (key : String) : Session :=
  if key == "db_name" || key == "db" then { s with dbName := "", isDirty := true }
  else if key == "user_id" || key == "uid" then { s with userId := 0, isDirty := true }
  else if key == "login" then { s with login := "", isDirty := true }
  else
    match lookupKey s.data key with
    | some _ => { s with data := delKey s.data key, isDirty := true }
    | none => s

/-- Session.Touch from session.go. -/
def Session.Touch (s : Session) (now : Nat) : Session :=
  { s with lastAccessed := now, isDirty := true }

/-- The JSON-visible fields of a Session, i.e. what json.Marshal persists
(flags carry the json:"-" tag and are not stored). -/
structure StoredSession where
  sid : String
  data : List (String × GoValue)
  createdAt : Nat
  lastAccessed : Nat
  dbName : String
  userId : Int
  login : String
  context : List (String × GoValue)

/-- json.MarshalIndent of a session. -/
def marshalSession (s : Session) : StoredSession :=
  { sid := s.sid, data := s.data, createdAt := s.createdAt, lastAccessed := s.lastAccessed,
    dbName := s.dbName, userId := s.userId, login := s.login, context := s.context }

/-- json.Unmarshal into a zero Session: untagged flags take their Go zero
value false. -/
def unmarshalSession (st : StoredSession) : Session :=
  { sid := st.sid, data := st.data, isDirty := false, isNew := false, shouldRotate := false,
    canSave := false, createdAt := st.createdAt, lastAccessed := st.lastAccessed,
    dbName := st.dbName, userId := st.userId, login := st.login, context := st.context }

/-- FilesystemSessionStore: the session directory is modelled as a map from
sid to stored JSON.  freshSid stands for the random id generateSessionID
would produce next (an oracle for the RNG). -/
structure FilesystemSessionStore where
  files : List (String × StoredSession)
  renewMissing : Bool
  freshSid : String

/-- FilesystemSessionStore.IsValidKey: 64 hex chars and the file exists. -/
def FilesystemSessionStore.IsValidKey (fs : FilesystemSessionStore) (sid : String) : Bool :=
  sid.length == 64 && (lookupKey fs.files sid).isSome

/-- FilesystemSessionStore.Save: no-op unless dirty and saveable; otherwise
writes the JSON file and resets the dirty/new flags on the saved session. -/
def FilesystemSessionStore.Save (fs : FilesystemSessionStore) (s : Session) :
    FilesystemSessionStore × Session :=
  if !s.canSave || !s.isDirty then (fs, s)
  else
    ({ fs with files := setKey fs.files s.sid (marshalSession s) },
     { s with isDirty := false, isNew := false })

/-- FilesystemSessionStore.Get: invalid or missing keys yield none (or a
fresh session under renewMissing); otherwise the file is read, unmarshalled,
the flags are set to loaded state and the session is touched at the current
time. -/
def FilesystemSessionStore.Get (fs : FilesystemSessionStore) (sid : String) (now : Nat) :
    Option Session :=
  if fs.IsValidKey sid then
    match lookupKey fs.files sid with
    | some st =>
      let session := unmarshalSession st
      let session := { session with isNew := false, isDirty := false, canSave := true }
      some (session.Touch now)
    | none => if fs.renewMissing then some (NewSession fs.freshSid now) else none
  else if fs.renewMissing then some (NewSession fs.freshSid now) else none

/-! ## C3: dirty tracking under Session.Set -/

/-- The special keys of Session.Set / Get / Delete. -/
def isSpecialKey (k : String) : Bool :=
  (k == "db_name" || k == "db") || (k == "user_id" || k == "uid") || k == "login"

/-- Whether the Go type assertion in the special-key branch of Session.Set
succeeds for this key and value. -/
def specialAssertionOk (k : String) (v : GoValue) : Bool :=
  if k == "db_name" || k == "db" then v.asString.isSome
  else if k == "user_id" || k == "uid" then v.asInt.isSome
  else v.asString.isSome

/-- A clean session already holding dbName = "x". -/
def c3Session : Session :=
  { sid := "sid", data := [], isDirty := false, isNew := false, shouldRotate := false,
    canSave := true, createdAt := 0, lastAccessed := 0,
    dbName := "x", userId := 0, login := "", context := [] }

/-- C3 counterexample: the value stored under the special key db_name is
"x" and the canonicalised form of the written value "x" is identical, yet
Set("db_name", "x") flips is_dirty from false to true. -/
theorem c3_counterexample_special_key_dirty :
    deepEqual (c3Session.Get "db_name").1 (.str "x") = true ∧
    c3Session.isDirty = false ∧
    (c3Session.Set "db_name" (.str "x")).isDirty = true := by
  decide

/-- C3 amended: for non-special keys Set leaves is_dirty unchanged exactly
when the canonicalised stored value equals the canonicalised new value (and
sets it otherwise); for special keys, a type-matching Set always sets
is_dirty = true even when the value is unchanged, and a type-mismatched Set
leaves the whole session unchanged. -/
theorem c3_amended_set_dirty (s : Session) (k : String) (v : GoValue) :
    (isSpecialKey k = false →
      (s.Set k v).isDirty =
        (match lookupKey s.data k with
         | some existing => if deepEqual existing v then s.isDirty else true
         | none => true))
  ∧ (isSpecialKey k = true → specialAssertionOk k v = true →
      (s.Set k v).isDirty = true)
  ∧ (isSpecialKey k = true → specialAssertionOk k v = false →
      s.Set k v = s) := by
  unfold Session.Set isSpecialKey specialAssertionOk
  cases h1 : (k == "db_name" || k == "db")
  case true =>
    cases hv : v.asString with
    | some str => simp [h1, hv]
    | none => simp [h1, hv]
  case false =>
    cases h2 : (k == "user_id" || k == "uid")
    case true =>
      cases hv : v.asInt with
      | some id => simp [h1, h2, hv]
      | none => simp [h1, h2, hv]
    case false =>
      cases h3 : (k == "login")
      case true =>
        cases hv : v.asString with
        | some str => simp [h1, h2, h3, hv]
        | none => simp [h1, h2, h3, hv]
      case false => simp [h1, h2, h3]

/-- C3 amended, witnessed at concrete inputs: a fresh non-special key marks
the session dirty, and a redundant special-key Set marks it dirty too. -/
theorem c3_amended_set_dirty_witness :
    isSpecialKey "color" = false ∧
    (c3Session.Set "color" (.str "red")).isDirty =
      (match lookupKey c3Session.data "color" with
       | some existing => if deepEqual existing (.str "red") then c3Session.isDirty else true
       | none => true) ∧
    isSpecialKey "db" = true ∧ specialAssertionOk "db" (.str "x") = true ∧
    (c3Session.Set "db" (.str "x")).isDirty = true :=
  ⟨by decide, (c3_amended_set_dirty c3Session "color" (.str "red")).1 (by decide),
   by decide, by decide,
   (c3_amended_set_dirty c3Session "db" (.str "x")).2.1 (by decide) (by decide)⟩

/-! ## C4: session save-then-load -/

/-- A 64-hex-char session id. -/
def c4Sid : String :=
  "0123456789abcdef0123456789abcdef0123456789abcdef0123456789abcdef"

def c4Session : Session :=
  { sid := c4Sid, data := [("k", .str "v")], isDirty := true, isNew := true,
    shouldRotate := false, canSave := true, createdAt := 10, lastAccessed := 10,
    dbName := "mydb", userId := 7, login := "bob", context := getDefaultContext }

def c4Store : FilesystemSessionStore :=
  { files := [], renewMissing := false, freshSid := "" }

/-- C4 counterexample: saving a dirty saveable session with last-access
time 10 and loading it at time 99 yields a session whose is_dirty flag is
true (Get touches the session after resetting it) and whose last-access
time is the load time, not the saved one. -/
theorem c4_counterexample_load_touches :
    c4Session.lastAccessed = 10 ∧ c4Session.isDirty = true ∧ c4Session.canSave = true ∧
    (((c4Store.Save c4Session).1.Get c4Sid 99).map (fun s => (s.isDirty, s.lastAccessed)))
      = some (true, 99) := by
  decide

/-- C4 amended: Save followed by Get yields a session equal to the saved
one on id, creation time, authentication triplet, data map and context map;
is_new is reset and can_save is set, but the loaded session is touched: its
last-access time is the load time and is_dirty ends up true. -/
theorem c4_amended_save_then_load (fs : FilesystemSessionStore) (s : Session) (now : Nat)
    (hd : s.isDirty = true) (hc : s.canSave = true) (hl : s.sid.length = 64) :
    (fs.Save s).1.Get s.sid now =
      some { sid := s.sid, data := s.data, isDirty := true, isNew := false,
             shouldRotate := false, canSave := true, createdAt := s.createdAt,
             lastAccessed := now, dbName := s.dbName, userId := s.userId,
             login := s.login, context := s.context } := by
  unfold FilesystemSessionStore.Save FilesystemSessionStore.Get
    FilesystemSessionStore.IsValidKey
  simp [hd, hc, hl, lookupKey_setKey_self, marshalSession, unmarshalSession, Session.Touch]

/-- C4 amended, witnessed at the concrete example session. -/
theorem c4_amended_save_then_load_witness :
    c4Session.isDirty = true ∧ c4Session.canSave = true ∧ c4Session.sid.length = 64 ∧
    (c4Store.Save c4Session).1.Get c4Session.sid 99 =
      some { sid := c4Session.sid, data := c4Session.data, isDirty := true, isNew := false,
             shouldRotate := false, canSave := true, createdAt := c4Session.createdAt,
             lastAccessed := 99, dbName := c4Session.dbName, userId := c4Session.userId,
             login := c4Session.login, context := c4Session.context } :=
  ⟨by decide, by decide, by decide,
   c4_amended_save_then_load c4Store c4Session 99 (by decide) (by decide) (by decide)⟩

/-! ## Connection pool (database, part_007)

The underlying gorm.DB handle of each pooled connection is identified by a
Nat tag; creating a connection allocates a fresh tag.  The liveness probe
testConnection (a ping against a live handle) is modelled as succeeding,
and createConnection as succeeding; the stored config clone is irrelevant
to the claims and omitted. -/

/-- pooledConnection from part_007: a live handle, a busy flag and the
last-used time. -/
structure PooledConnection where
  dbId : Nat
  used : Bool
  lastUsed : Nat
deriving DecidableEq, Repr

/-- Connection wrapper handed to the caller: the handle and the pool key.
Connection.Close calls pool.Return(key). -/
structure Connection where
  dbId : Nat
  key : String
deriving DecidableEq, Repr

/-- ConnectionPool from part_007.  nextDbId models allocation of fresh
gorm.DB handles. -/
structure ConnectionPool where
  connections : List (String × PooledConnection)
  maxConns : Nat
  nextDbId : Nat
deriving DecidableEq, Repr

/-- NewConnectionPool: non-positive caps fall back to 64. -/
def NewConnectionPool (maxConns : Nat) : ConnectionPool :=
  { connections := [], maxConns := if maxConns = 0 then 64 else maxConns, nextDbId := 0 }

/-- The sweep keeps an entry unless it is not busy and its last-used time
lies strictly before now minus 30 minutes. -/
def keepConnection (now : Nat) (e : String × PooledConnection) : Bool :=
  !(!e.2.used && decide (e.2.lastUsed + 30 * 60 < now))

/-- cleanupUnusedConnections from part_007: close and drop old unused
entries. -/
def ConnectionPool.cleanupUnusedConnections (p : ConnectionPool) (now : Nat) : ConnectionPool :=
  { p with connections := p.connections.filter (keepConnection now) }

/-- Opening a new connection and recording it under the key (Go map
assignment replaces any existing entry for the key). -/
def ConnectionPool.createNew (p : ConnectionPool) (key : String) (now : Nat) :
    Option Connection × ConnectionPool :=
  (some { dbId := p.nextDbId, key := key },
   { p with
     connections := setKey p.connections key
       { dbId := p.nextDbId, used := true, lastUsed := now },
     nextDbId := p.nextDbId + 1 })

/-- The creation tail of Borrow: when at the cap, sweep idle entries and
re-check the cap, failing with the pool-exhausted error if still full. -/
def ConnectionPool.borrowCreate (p : ConnectionPool) (key : String) (now : Nat) :
    Option Connection × ConnectionPool :=
  if p.connections.length ≥ p.maxConns then
    if (p.cleanupUnusedConnections now).connections.length ≥ p.maxConns then
      (none, p.cleanupUnusedConnections now)
    else
      (p.cleanupUnusedConnections now).createNew key now
  else
    p.createNew key now

/-- ConnectionPool.Borrow from part_007: reuse an existing non-busy live
entry for the key, otherwise fall through to creation. -/
def ConnectionPool.Borrow (p : ConnectionPool) (key : String) (now : Nat) :
    Option Connection × ConnectionPool :=
  match lookupKey p.connections key with
  | some pc =>
    if pc.used = false then
      (some { dbId := pc.dbId, key := key },
       { p with connections := setKey p.connections key { pc with used := true, lastUsed := now } })
    else
      p.borrowCreate key now
  | none => p.borrowCreate key now

/-- ConnectionPool.Return from part_007: clear the busy flag and refresh
the last-used time of the entry currently bound to the key. -/
def ConnectionPool.Return (p : ConnectionPool) (key : String) (now : Nat) : ConnectionPool :=
  match lookupKey p.connections key with
  | some pc =>
    { p with connections := setKey p.connections key { pc with used := false, lastUsed := now } }
  | none => p

/-! ## C1: single-take discipline over operation traces -/

/-- One pool operation performed by an identified caller: a Borrow, or a
Connection.Close (which calls pool.Return on the connection key). -/
inductive PoolOp
  | borrow (caller : Nat) (key : String) (now : Nat)
  | close (caller : Nat) (now : Nat)

/-- The pool together with the connections currently held by callers
(borrowed and not yet returned). -/
structure PoolState where
  pool : ConnectionPool
  held : List (Nat × Connection)

def stepPool (st : PoolState) : PoolOp → PoolState
  | .borrow caller key now =>
    match st.pool.Borrow key now with
    | (some c, p) => { pool := p, held := (caller, c) :: st.held }
    | (none, p) => { pool := p, held := st.held }
  | .close caller now =>
    match st.held.find? (fun e => e.1 == caller) with
    | some e =>
      { pool := st.pool.Return e.2.key now,
        held := st.held.filter (fun e2 => e2.1 != caller) }
    | none => st

def runPool (maxConns : Nat) (ops : List PoolOp) : PoolState :=
  ops.foldl stepPool { pool := NewConnectionPool maxConns, held := [] }

/-- No two simultaneously held connections share an underlying handle. -/
def distinctHandles : List (Nat × Connection) → Bool
  | [] => true
  | e :: rest => rest.all (fun e2 => e.2.dbId != e2.2.dbId) && distinctHandles rest

/-- The trace that breaks single-take: caller 1 borrows key k, caller 2
borrows the same key while it is busy (the pool creates a second handle and
overwrites the entry), caller 1 returns, and caller 3 then reuses the entry
that still belongs to caller 2. -/
def c1Trace : List PoolOp :=
  [.borrow 1 "k" 0, .borrow 2 "k" 1, .close 1 2, .borrow 3 "k" 3]

/-- C1: after the trace above, callers 2 and 3 simultaneously hold the
same underlying handle (dbId 1), so the pool is not single-take: a Borrow
observes the handle of a connection whose holder never returned it. -/
theorem c1_two_callers_share_handle :
    distinctHandles (runPool 10 c1Trace).held = false ∧
    (runPool 10 c1Trace).held.map (fun e => (e.1, e.2.dbId)) = [(3, 1), (2, 1)] := by
  decide

/-! ## C8: borrow at the connection cap -/

theorem length_filter_lt_of_mem_not {α : Type} (l : List α) (pred : α → Bool)
    (x : α) (hx : x ∈ l) (hpx : pred x = false) :
    (l.filter pred).length < l.length := by
  induction l with
  | nil => cases hx
  | cons a t ih =>
    rcases List.mem_cons.mp hx with rfl | hxt
    · simp only [List.filter_cons, hpx, List.length_cons]
      exact Nat.lt_succ_of_le (List.length_filter_le pred t)
    · by_cases ha : pred a = true
      · simpa [List.filter_cons, ha] using Nat.succ_lt_succ (ih hxt)
      · rw [Bool.not_eq_true] at ha
        simp only [List.filter_cons, ha, List.length_cons]
        exact Nat.lt_succ_of_lt (ih hxt)

/-- C8: a Borrow that finds the pool at its connection cap (no reusable
idle entry under the key, size equal to the cap): if some entry is idle and
older than 30 minutes it is swept and the borrow succeeds with a freshly
created connection; if no entry qualifies, the borrow fails with the
pool-exhausted error. -/
theorem c8_borrow_at_cap (p : ConnectionPool) (key : String) (now : Nat)
    (hfull : p.connections.length = p.maxConns)
    (hbusy : ∀ pc, lookupKey p.connections key = some pc → pc.used = true) :
    ((∃ e ∈ p.connections, e.2.used = false ∧ e.2.lastUsed + 30 * 60 < now) →
      (p.Borrow key now).1 = some { dbId := p.nextDbId, key := key })
  ∧ ((∀ e ∈ p.connections, e.2.used = true ∨ ¬ e.2.lastUsed + 30 * 60 < now) →
      (p.Borrow key now).1 = none) := by
  have hstep : (p.Borrow key now).1 = (p.borrowCreate key now).1 := by
    unfold ConnectionPool.Borrow
    cases hk : lookupKey p.connections key with
    | some pc => simp [hbusy pc hk]
    | none => simp
  rw [hstep]
  unfold ConnectionPool.borrowCreate ConnectionPool.cleanupUnusedConnections
  rw [if_pos (show p.connections.length ≥ p.maxConns by rw [hfull])]
  constructor
  · rintro ⟨e, he, hu, ht⟩
    have hfe : keepConnection now e = false := by simp [keepConnection, hu, ht]
    have hlt := length_filter_lt_of_mem_not p.connections (keepConnection now) e he hfe
    rw [hfull] at hlt
    rw [if_neg (Nat.not_le.mpr hlt)]
    rfl
  · intro hall
    have hkeep : ∀ e ∈ p.connections, keepConnection now e = true := by
      intro e he
      rcases hall e he with hu | ht
      · simp [keepConnection, hu]
      · simp [keepConnection, ht]
    have hfe : p.connections.filter (keepConnection now) = p.connections :=
      List.filter_eq_self.mpr hkeep
    rw [if_pos (show p.maxConns ≤ (p.connections.filter (keepConnection now)).length by
      rw [hfe, hfull])]

/-- C8 witnessed: a one-slot pool whose single entry is idle since time 0
admits a fresh borrow at time 4000, and the same pool with the entry busy
is exhausted. -/
theorem c8_borrow_at_cap_witness :
    (ConnectionPool.Borrow
      { connections := [("a", { dbId := 0, used := false, lastUsed := 0 })],
        maxConns := 1, nextDbId := 5 } "b" 4000).1 = some { dbId := 5, key := "b" } ∧
    (ConnectionPool.Borrow
      { connections := [("a", { dbId := 0, used := true, lastUsed := 0 })],
        maxConns := 1, nextDbId := 5 } "b" 4000).1 = none :=
  ⟨(c8_borrow_at_cap
      { connections := [("a", { dbId := 0, used := false, lastUsed := 0 })],
        maxConns := 1, nextDbId := 5 } "b" 4000 (by decide)
      (by intro pc h; simp [lookupKey, List.find?] at h)).1
      ⟨("a", { dbId := 0, used := false, lastUsed := 0 }), by decide, by decide, by decide⟩,
   (c8_borrow_at_cap
      { connections := [("a", { dbId := 0, used := true, lastUsed := 0 })],
        maxConns := 1, nextDbId := 5 } "b" 4000 (by decide)
      (by intro pc h; simp [lookupKey, List.find?] at h)).2
      (by intro e he; rcases List.mem_singleton.mp he with rfl; left; rfl)⟩

/-! ## strings.Contains -/

def listStartsWith : List Char → List Char → Bool
  | [], _ => true
  | _ :: _, [] => false
  | a :: as, b :: bs => a == b && listStartsWith as bs

def listHasSub (sub : List Char) : List Char → Bool
  | [] => listStartsWith sub []
  | b :: bs => listStartsWith sub (b :: bs) || listHasSub sub bs

/-- strings.Contains(s, pat). -/
def strContains (s pat : String) : Bool :=
  listHasSub pat.data s.data

/-! ## Models and field validation (goodoo/models/model.go, goodoo/fields) -/

/-- fields.Field is a Go interface; ValidateData only uses IsRequired and
Validate, so a field is modelled by those two members. -/
structure Field where
  required : Bool
  validate : GoValue → Option String

/-- ModelDefinition from model.go, restricted to the members the dispatcher
uses.  The Go field map is modelled as an association list (one iteration
order of the map). -/
structure ModelDefinition where
  name : String
  fields : List (String × Field)

/-- The field loop of ModelDefinition.ValidateData: required fields must be
present and non-nil, and present values must pass Field.Validate; the first
failure is returned. -/
def validateFieldList : List (String × Field) → List (String × GoValue) → Option String
  | [], _ => none
  | (fname, f) :: rest, data =>
    match lookupKey data fname with
    | none =>
      if f.required then some ("field \x27" ++ fname ++ "\x27 is required")
      else validateFieldList rest data
    | some v =>
      if f.required && v.isNull then some ("field \x27" ++ fname ++ "\x27 is required")
      else
        match f.validate v with
        | some err => some ("validation error for field \x27" ++ fname ++ "\x27: " ++ err)
        | none => validateFieldList rest data

/-- ModelDefinition.ValidateData from model.go. -/
def ModelDefinition.ValidateData (m : ModelDefinition) (data : List (String × GoValue)) :
    Option String :=
  validateFieldList m.fields data

/-! ## API registry and dispatcher (part_010) -/

/-- MethodType from part_010. -/
inductive MethodType
  | modelMethod
  | recordMethod
  | modelCreateMethod
  | privateMethod
deriving DecidableEq, Repr

/-- A handler outcome: the Go (result, error) pair. -/
inductive ExecResult
  | ok (result : GoValue)
  | er (msg : String)

/-- A Go handler called through reflection: it receives the record ids
(empty for model-level calls) and the positional arguments. -/
abbrev Handler : Type := List Int → List GoValue → ExecResult

/-- APIMethod from part_010 (the Logger field is emission-only and
omitted). -/
structure APIMethod where
  name : String
  type : MethodType
  public : Bool
  constrains : List String
  depends : List String
  onChange : List String
  returns : String
  groups : List String
  help : String
  contextVals : List (String × GoValue)
  handler : Handler
  model : Option ModelDefinition

/-- The Private decorator from part_010: kind := private, public := false. -/
def privateDecorator (m : APIMethod) : APIMethod :=
  { m with type := .privateMethod, public := false }

/-- The Groups decorator from part_010. -/
def groupsDecorator (gs : List String) (m : APIMethod) : APIMethod :=
  { m with groups := gs }

/-- APICall from part_010. -/
structure APICall where
  modelName : String
  methodName : String
  args : List GoValue
  kwargs : List (String × GoValue)
  context : List (String × GoValue)
  ids : List Int

/-- APIResponse from part_010 (warning is never set by the dispatcher and
is omitted). -/
structure APIResponse where
  success : Bool
  result : Option GoValue
  error : String

/-- A dispatch outcome: the response, plus whether the handler was invoked
(observable in Go as the reflective handler.Call). -/
structure DispatchResult where
  response : APIResponse
  handlerInvoked : Bool

/-- APIRegistry from part_010: model name to method name to method. -/
structure APIRegistry where
  methods : List (String × List (String × APIMethod))

/-- APIRegistry.NewMethod from part_010: installs the method in the
registry immediately with the defaults kind=record and public=true;
fieldModels stands for the global models.GetFieldModel registry.  The
returned APIMethod is what the MethodBuilder wraps. -/
def APIRegistry.NewMethod (r : APIRegistry) (fieldModels : List (String × ModelDefinition))
    (modelName methodName : String) (handler : Handler) : APIRegistry × APIMethod :=
  let method : APIMethod :=
    { name := methodName, type := .recordMethod, public := true,
      constrains := [], depends := [], onChange := [], returns := "", groups := [],
      help := "", contextVals := [], handler := handler,
      model := lookupKey fieldModels modelName }
  ({ methods := setKey r.methods modelName
      (setKey ((lookupKey r.methods modelName).getD []) methodName method) },
   method)

/-- Resolution of (model, method) in the registry. -/
def lookupMethod (r : APIRegistry) (modelName methodName : String) : Option APIMethod :=
  match lookupKey r.methods modelName with
  | some modelMethods => lookupKey modelMethods methodName
  | none => none

/-- APIRegistry.checkPermissions from part_010: methods with declared
groups require an authenticated caller (user id not 0); the group
membership comparison itself is commented out in the source. -/
def checkPermissions (method : APIMethod) (reqUserId : Int) : Option String :=
  if method.groups.length > 0 then
    if reqUserId == 0 then some "authentication required" else none
  else none

/-- executeModelMethod from part_010: the handler is invoked with the
context, the model reference and the positional args. -/
def executeModelMethod (method : APIMethod) (call : APICall) : ExecResult × Bool :=
  (method.handler [] call.args, true)

/-- executeRecordMethod from part_010: record methods require a non-empty
ids list, then the handler is invoked with the ids and args. -/
def executeRecordMethod (method : APIMethod) (call : APICall) : ExecResult × Bool :=
  if call.ids.length == 0 then (.er "record method requires IDs", false)
  else (method.handler call.ids call.args, true)

/-- The validation loop of executeCreateMethod: the first positional arg
that is a mapping and fails ValidateData yields the error. -/
def firstMappingValidationError (m : ModelDefinition) : List GoValue → Option String
  | [] => none
  | .map data :: rest =>
    (match m.ValidateData data with
     | some e => some e
     | none => firstMappingValidationError m rest)
  | _ :: rest => firstMappingValidationError m rest

/-- executeCreateMethod from part_010: requires data, validates each
mapping arg against the model when one is attached, then falls through to
the model-method invocation. -/
def executeCreateMethod (method : APIMethod) (call : APICall) : ExecResult × Bool :=
  if call.args.length == 0 then (.er "create method requires data", false)
  else
    match method.model with
    | some m =>
      match firstMappingValidationError m call.args with
      | some e => (.er ("validation failed: " ++ e), false)
      | none => executeModelMethod method call
    | none => executeModelMethod method call

def failResponse (msg : String) : APIResponse :=
  { success := false, result := none, error := msg }

/-- The translation of a handler outcome into the response envelope:
a non-nil error yields the failure envelope, otherwise success with the
result. -/
def toDispatch : ExecResult × Bool → DispatchResult
  | (.er msg, invoked) => { response := failResponse msg, handlerInvoked := invoked }
  | (.ok v, invoked) =>
    { response := { success := true, result := some v, error := "" },
      handlerInvoked := invoked }

/-- The kind branch of ExecuteCall (the Go switch on method.Type). -/
def executeByType (method : APIMethod) (call : APICall) : ExecResult × Bool :=
  match method.type with
  | .modelMethod => executeModelMethod method call
  | .modelCreateMethod => executeCreateMethod method call
  | .recordMethod => executeRecordMethod method call
  | .privateMethod => (.er "unknown method type: private", false)

/-- The body of ExecuteCall after method resolution: reject non-public
methods, check permissions, branch on the method kind and translate the
handler outcome into the response envelope. -/
def dispatchResolved (method : APIMethod) (call : APICall) (reqUserId : Int) :
    DispatchResult :=
  if method.public = false then
    { response := failResponse "Method is not accessible via RPC",
      handlerInvoked := false }
  else
    match checkPermissions method reqUserId with
    | some err =>
      { response := failResponse ("Access denied: " ++ err), handlerInvoked := false }
    | none => toDispatch (executeByType method call)

/-- APIRegistry.ExecuteCall from part_010: resolve the method against the
registry (distinct errors for unknown model and unknown method), then
dispatch it. -/
def APIRegistry.ExecuteCall (r : APIRegistry) (call : APICall) (reqUserId : Int) :
    DispatchResult :=
  match lookupKey r.methods call.modelName with
  | none =>
    { response := failResponse ("Model \x27" ++ call.modelName ++ "\x27 not found"),
      handlerInvoked := false }
  | some modelMethods =>
    match lookupKey modelMethods call.methodName with
    | none =>
      { response := failResponse ("Method \x27" ++ call.methodName ++
          "\x27 not found on model \x27" ++ call.modelName ++ "\x27"),
        handlerInvoked := false }
    | some method => dispatchResolved method call reqUserId

theorem ExecuteCall_found (r : APIRegistry) (call : APICall) (reqUserId : Int)
    (m : APIMethod)
    (hfound : lookupMethod r call.modelName call.methodName = some m) :
    r.ExecuteCall call reqUserId = dispatchResolved m call reqUserId := by
  unfold lookupMethod at hfound
  unfold APIRegistry.ExecuteCall
  cases h1 : lookupKey r.methods call.modelName with
  | none => rw [h1] at hfound; cases hfound
  | some modelMethods =>
    rw [h1] at hfound
    simp only at hfound
    simp [hfound]

theorem checkPermissions_none (m : APIMethod) (u : Int)
    (h : m.groups = [] ∨ u ≠ 0) : checkPermissions m u = none := by
  unfold checkPermissions
  rcases h with hg | hu
  · simp [hg]
  · simp [hu]

theorem dispatchResolved_gate_passed (m : APIMethod) (call : APICall) (u : Int)
    (hpub : m.public = true) (hgate : m.groups = [] ∨ u ≠ 0) :
    dispatchResolved m call u = toDispatch (executeByType m call) := by
  unfold dispatchResolved
  rw [hpub, checkPermissions_none m u hgate]
  simp

theorem executeByType_create (m : APIMethod) (md : ModelDefinition) (call : APICall)
    (htype : m.type = .modelCreateMethod) (hmodel : m.model = some md) :
    executeByType m call =
      match call.args with
      | [] => (.er "create method requires data", false)
      | _ :: _ =>
        match firstMappingValidationError md call.args with
        | some e => (.er ("validation failed: " ++ e), false)
        | none => executeModelMethod m call := by
  unfold executeByType executeCreateMethod
  rw [htype, hmodel]
  cases call.args with
  | nil => rfl
  | cons a rest => rfl

/-! ## C7: private methods are never accessible -/

/-- C7: every dispatch of a method declared via the Private decorator
(kind=private, public=false) yields success=false with an error containing
"not accessible", and never invokes the handler, for every caller. -/
theorem c7_private_not_accessible (r : APIRegistry) (call : APICall) (reqUserId : Int)
    (m0 : APIMethod)
    (hfound : lookupMethod r call.modelName call.methodName = some (privateDecorator m0)) :
    (r.ExecuteCall call reqUserId).response.success = false ∧
    strContains (r.ExecuteCall call reqUserId).response.error "not accessible" = true ∧
    (r.ExecuteCall call reqUserId).handlerInvoked = false := by
  rw [ExecuteCall_found r call reqUserId _ hfound]
  refine ⟨rfl, ?_, rfl⟩
  have h : strContains "Method is not accessible via RPC" "not accessible" = true := by decide
  exact h

def c7Base : APIMethod :=
  { name := "internalSecret", type := .recordMethod, public := true,
    constrains := [], depends := [], onChange := [], returns := "", groups := [],
    help := "", contextVals := [], handler := fun _ _ => .ok .null, model := none }

def c7Registry : APIRegistry :=
  { methods := [("partner", [("internalSecret", privateDecorator c7Base)])] }

def c7Call : APICall :=
  { modelName := "partner", methodName := "internalSecret", args := [], kwargs := [],
    context := [], ids := [1] }

/-- C7 witnessed at a concrete registry, for an authenticated caller. -/
theorem c7_private_not_accessible_witness :
    lookupMethod c7Registry c7Call.modelName c7Call.methodName
      = some (privateDecorator c7Base) ∧
    ((c7Registry.ExecuteCall c7Call 7).response.success = false ∧
     strContains (c7Registry.ExecuteCall c7Call 7).response.error "not accessible" = true ∧
     (c7Registry.ExecuteCall c7Call 7).handlerInvoked = false) :=
  ⟨rfl, c7_private_not_accessible c7Registry c7Call 7 c7Base rfl⟩

/-! ## C6: record methods with empty ids -/

def c6Method : APIMethod :=
  { name := "archive", type := .recordMethod, public := true,
    constrains := [], depends := [], onChange := [], returns := "",
    groups := ["base.group_admin"], help := "", contextVals := [],
    handler := fun _ _ => .ok .null, model := none }

def c6Registry : APIRegistry :=
  { methods := [("partner", [("archive", c6Method)])] }

def c6Call : APICall :=
  { modelName := "partner", methodName := "archive", args := [], kwargs := [],
    context := [], ids := [] }

/-- C6 counterexample: a record method gated by groups, dispatched with an
empty ids list by an unauthenticated caller, fails with the access-denied
error, whose text does not contain "IDs". -/
theorem c6_counterexample_gate_precedes_ids :
    (lookupMethod c6Registry "partner" "archive").map (fun m => m.type)
      = some .recordMethod ∧
    c6Call.ids = [] ∧
    (c6Registry.ExecuteCall c6Call 0).response.success = false ∧
    (c6Registry.ExecuteCall c6Call 0).response.error = "Access denied: authentication required" ∧
    strContains (c6Registry.ExecuteCall c6Call 0).response.error "IDs" = false := by
  decide

/-- C6 amended: a dispatch of a record method with empty ids always fails
and never invokes the handler; when the method passes the public and group
gates (it is public, and declares no groups or the caller is
authenticated), the error contains "IDs". -/
theorem c6_amended_record_empty_ids (r : APIRegistry) (call : APICall) (reqUserId : Int)
    (m : APIMethod)
    (hfound : lookupMethod r call.modelName call.methodName = some m)
    (htype : m.type = .recordMethod)
    (hids : call.ids = []) :
    (r.ExecuteCall call reqUserId).response.success = false ∧
    (r.ExecuteCall call reqUserId).handlerInvoked = false ∧
    (m.public = true → (m.groups = [] ∨ reqUserId ≠ 0) →
      strContains (r.ExecuteCall call reqUserId).response.error "IDs" = true) := by
  rw [ExecuteCall_found r call reqUserId m hfound]
  unfold dispatchResolved
  cases hpub : m.public with
  | false =>
    refine ⟨rfl, rfl, ?_⟩
    intro hpub2
    cases hpub2
  | true =>
    rw [if_neg (by simp)]
    cases hperm : checkPermissions m reqUserId with
    | some err =>
      refine ⟨rfl, rfl, ?_⟩
      intro _ hgate
      rw [checkPermissions_none m reqUserId hgate] at hperm
      cases hperm
    | none =>
      have hbt : executeByType m call = (.er "record method requires IDs", false) := by
        unfold executeByType executeRecordMethod
        rw [htype, hids]
        rfl
      rw [hbt]
      refine ⟨rfl, rfl, ?_⟩
      intro _ _
      have h : strContains "record method requires IDs" "IDs" = true := by decide
      exact h

def c6wMethod : APIMethod :=
  { name := "archive", type := .recordMethod, public := true,
    constrains := [], depends := [], onChange := [], returns := "", groups := [],
    help := "", contextVals := [], handler := fun _ _ => .ok .null, model := none }

def c6wRegistry : APIRegistry :=
  { methods := [("partner", [("archive", c6wMethod)])] }

/-- C6 amended, witnessed: an ungated record method with empty ids fails
with an error containing "IDs". -/
theorem c6_amended_record_empty_ids_witness :
    lookupMethod c6wRegistry c6Call.modelName c6Call.methodName = some c6wMethod ∧
    c6wMethod.type = .recordMethod ∧ c6Call.ids = [] ∧
    ((c6wRegistry.ExecuteCall c6Call 0).response.success = false ∧
     (c6wRegistry.ExecuteCall c6Call 0).handlerInvoked = false ∧
     (c6wMethod.public = true → (c6wMethod.groups = [] ∨ (0 : Int) ≠ 0) →
       strContains (c6wRegistry.ExecuteCall c6Call 0).response.error "IDs" = true)) :=
  ⟨rfl, rfl, rfl, c6_amended_record_empty_ids c6wRegistry c6Call 0 c6wMethod rfl rfl rfl⟩

/-! ## C5: create-method validation -/

/-- A partner model whose name field is a required string and whose email
field is optional (Field.Validate accepting any value, as CharField does
for strings). -/
def c5Model : ModelDefinition :=
  { name := "partner",
    fields := [("name", { required := true, validate := fun _ => none }),
               ("email", { required := false, validate := fun _ => none })] }

def c5Method : APIMethod :=
  { name := "create", type := .modelCreateMethod, public := true,
    constrains := [], depends := [], onChange := [], returns := "",
    groups := ["base.group_user"], help := "", contextVals := [],
    handler := fun _ _ => .ok .null, model := some c5Model }

def c5Registry : APIRegistry :=
  { methods := [("partner", [("create", c5Method)])] }

def c5Call : APICall :=
  { modelName := "partner", methodName := "create",
    args := [.map [("email", .str "x@y.z")]], kwargs := [], context := [], ids := [] }

/-- C5 counterexample: a model_create method with an attached model and a
group gate, called by an unauthenticated caller with a mapping argument
that fails validation (missing required name): the response is the
access-denied envelope, which does not describe the validation failure. -/
theorem c5_counterexample_gate_precedes_validation :
    c5Method.type = .modelCreateMethod ∧
    c5Method.model.isSome = true ∧
    firstMappingValidationError c5Model c5Call.args
      = some ("field \x27name\x27 is required") ∧
    (c5Registry.ExecuteCall c5Call 0).response.success = false ∧
    (c5Registry.ExecuteCall c5Call 0).response.error = "Access denied: authentication required" ∧
    strContains (c5Registry.ExecuteCall c5Call 0).response.error "validation failed" = false ∧
    (c5Registry.ExecuteCall c5Call 0).handlerInvoked = false := by
  decide

/-- C5 amended: for a dispatch of a model_create method with an attached
model that passes the public and group gates, a validation failure of any
mapping positional argument short-circuits with the envelope
success=false / error = "validation failed: " + reason, without invoking
the handler; and whenever the handler is invoked, every mapping positional
argument passed validation. -/
theorem c5_amended_create_validation (r : APIRegistry) (call : APICall) (reqUserId : Int)
    (m : APIMethod) (md : ModelDefinition)
    (hfound : lookupMethod r call.modelName call.methodName = some m)
    (htype : m.type = .modelCreateMethod)
    (hmodel : m.model = some md)
    (hpub : m.public = true)
    (hgate : m.groups = [] ∨ reqUserId ≠ 0) :
    (∀ e, firstMappingValidationError md call.args = some e →
      (r.ExecuteCall call reqUserId).response.success = false ∧
      (r.ExecuteCall call reqUserId).response.error = "validation failed: " ++ e ∧
      (r.ExecuteCall call reqUserId).handlerInvoked = false)
  ∧ ((r.ExecuteCall call reqUserId).handlerInvoked = true →
      firstMappingValidationError md call.args = none) := by
  rw [ExecuteCall_found r call reqUserId m hfound,
      dispatchResolved_gate_passed m call reqUserId hpub hgate,
      executeByType_create m md call htype hmodel]
  cases hargs : call.args with
  | nil =>
    refine ⟨?_, ?_⟩
    · intro e he
      simp [firstMappingValidationError] at he
    · intro hinv
      exact Bool.noConfusion hinv
  | cons a rest =>
    cases hv : firstMappingValidationError md (a :: rest) with
    | some e =>
      refine ⟨?_, ?_⟩
      · intro e2 he2
        cases he2
        exact ⟨rfl, rfl, rfl⟩
      · intro hinv
        exact Bool.noConfusion hinv
    | none =>
      refine ⟨?_, ?_⟩
      · intro e2 he2
        cases he2
      · intro _
        rfl

def c5wCall : APICall :=
  { modelName := "partner", methodName := "create",
    args := [.map [("email", .str "x@y.z")]], kwargs := [], context := [], ids := [] }

def c5wMethod : APIMethod :=
  { name := "create", type := .modelCreateMethod, public := true,
    constrains := [], depends := [], onChange := [], returns := "", groups := [],
    help := "", contextVals := [], handler := fun _ _ => .ok .null, model := some c5Model }

def c5wRegistry : APIRegistry :=
  { methods := [("partner", [("create", c5wMethod)])] }

/-- C5 amended, witnessed: an ungated create method with a mapping arg
missing the required name field fails with the validation envelope. -/
theorem c5_amended_create_validation_witness :
    lookupMethod c5wRegistry c5wCall.modelName c5wCall.methodName = some c5wMethod ∧
    c5wMethod.type = .modelCreateMethod ∧ c5wMethod.model = some c5Model ∧
    c5wMethod.public = true ∧ c5wMethod.groups = [] ∧
    firstMappingValidationError c5Model c5wCall.args = some ("field \x27name\x27 is required") ∧
    ((c5wRegistry.ExecuteCall c5wCall 0).response.success = false ∧
     (c5wRegistry.ExecuteCall c5wCall 0).response.error
        = "validation failed: " ++ "field \x27name\x27 is required" ∧
     (c5wRegistry.ExecuteCall c5wCall 0).handlerInvoked = false) :=
  ⟨rfl, rfl, rfl, rfl, rfl, rfl,
   (c5_amended_create_validation c5wRegistry c5wCall 0 c5wMethod c5Model
      rfl rfl rfl rfl (Or.inl rfl)).1 ("field \x27name\x27 is required") rfl⟩

/-! ## C9: HTTP status mapping (goodoo/handlers/api.go CallMethod) -/

/-- The status selection of APIHandler.CallMethod: start from 200; on
failure set 400, then 403 when the error contains "Access denied" or
"not accessible", then 404 when it contains "not found". -/
def statusForResponse (resp : APIResponse) : Nat :=
  if resp.success then 200
  else
    let status := 400
    let status :=
      if strContains resp.error "Access denied" || strContains resp.error "not accessible" then 403
      else status
    let status := if strContains resp.error "not found" then 404 else status
    status

/-- The mapping as the claim words it: success 200; else "access denied"
or "not accessible" 403; else "not found" 404; else 400. -/
def statusSpecClaim (resp : APIResponse) : Nat :=
  if resp.success then 200
  else if strContains resp.error "access denied" || strContains resp.error "not accessible" then 403
  else if strContains resp.error "not found" then 404
  else 400

/-- C9 counterexample: a failure whose error string is exactly
"access denied" (lower case) is mapped to 400 by the handler, not the 403
the claim requires, because the code matches the capitalised substring
"Access denied". -/
theorem c9_counterexample_case_sensitive :
    statusForResponse { success := false, result := none, error := "access denied" } = 400 ∧
    statusSpecClaim { success := false, result := none, error := "access denied" } = 403 := by
  decide

/-- The mapping the code implements: matching is case-sensitive on
"Access denied" / "not accessible", and "not found" takes precedence when
both kinds of substring occur. -/
def statusSpecAmended (resp : APIResponse) : Nat :=
  if resp.success then 200
  else if strContains resp.error "not found" then 404
  else if strContains resp.error "Access denied" || strContains resp.error "not accessible" then 403
  else 400

/-- C9 amended: success maps to 200; a failure containing "not found" maps
to 404; otherwise a failure containing "Access denied" (capitalised, as the
dispatcher emits it) or "not accessible" maps to 403; every other failure
maps to 400. -/
theorem c9_amended_status_mapping (resp : APIResponse) :
    statusForResponse resp = statusSpecAmended resp := by
  unfold statusForResponse statusSpecAmended
  cases hs : resp.success <;>
    cases h1 : strContains resp.error "not found" <;>
      cases h2 : strContains resp.error "Access denied" <;>
        cases h3 : strContains resp.error "not accessible" <;>
          simp [hs, h1, h2, h3]

/-! ## C10: NewMethod installs a dispatchable record method without Register -/

theorem lookupMethod_NewMethod (r : APIRegistry)
    (fieldModels : List (String × ModelDefinition)) (modelName methodName : String)
    (handler : Handler) :
    lookupMethod (r.NewMethod fieldModels modelName methodName handler).1 modelName methodName
      = some (r.NewMethod fieldModels modelName methodName handler).2 := by
  unfold APIRegistry.NewMethod lookupMethod
  simp [lookupKey_setKey_self]

/-- C10: a single NewMethod call, with no decorators and no Register,
already installs a method with kind=record and public=true that the
dispatcher resolves; dispatching it without ids fails with an error
containing "IDs" and never invokes the handler, while dispatching it with
a non-empty ids list invokes the handler, for every caller. -/
theorem c10_newmethod_immediately_dispatchable (r : APIRegistry)
    (fieldModels : List (String × ModelDefinition)) (modelName methodName : String)
    (handler : Handler) (reqUserId : Int) (args : List GoValue)
    (kwargs kctx : List (String × GoValue)) (i : Int) (rest : List Int) :
    ((lookupMethod (r.NewMethod fieldModels modelName methodName handler).1
        modelName methodName).map (fun m => (m.type, m.public))
      = some (.recordMethod, true)) ∧
    (((r.NewMethod fieldModels modelName methodName handler).1.ExecuteCall
        { modelName := modelName, methodName := methodName, args := args,
          kwargs := kwargs, context := kctx, ids := [] } reqUserId).response.success = false ∧
     strContains ((r.NewMethod fieldModels modelName methodName handler).1.ExecuteCall
        { modelName := modelName, methodName := methodName, args := args,
          kwargs := kwargs, context := kctx, ids := [] } reqUserId).response.error "IDs" = true ∧
     ((r.NewMethod fieldModels modelName methodName handler).1.ExecuteCall
        { modelName := modelName, methodName := methodName, args := args,
          kwargs := kwargs, context := kctx, ids := [] } reqUserId).handlerInvoked = false) ∧
    (((r.NewMethod fieldModels modelName methodName handler).1.ExecuteCall
        { modelName := modelName, methodName := methodName, args := args,
          kwargs := kwargs, context := kctx, ids := i :: rest } reqUserId).handlerInvoked
      = true) := by
  have hfound := lookupMethod_NewMethod r fieldModels modelName methodName handler
  refine ⟨?_, ?_, ?_⟩
  · rw [hfound]
    rfl
  · rw [ExecuteCall_found _ _ reqUserId _ hfound,
      dispatchResolved_gate_passed _ _ reqUserId rfl (Or.inl rfl)]
    have hbt : executeByType (r.NewMethod fieldModels modelName methodName handler).2
        { modelName := modelName, methodName := methodName, args := args,
          kwargs := kwargs, context := kctx, ids := [] } =
        (.er "record method requires IDs", false) := by
      unfold executeByType executeRecordMethod APIRegistry.NewMethod
      rfl
    rw [hbt]
    refine ⟨rfl, ?_, rfl⟩
    have h : strContains "record method requires IDs" "IDs" = true := by decide
    exact h
  · rw [ExecuteCall_found _ _ reqUserId _ hfound,
      dispatchResolved_gate_passed _ _ reqUserId rfl (Or.inl rfl)]
    have hbt : executeByType (r.NewMethod fieldModels modelName methodName handler).2
        { modelName := modelName, methodName := methodName, args := args,
          kwargs := kwargs, context := kctx, ids := i :: rest } =
        (handler (i :: rest) args, true) := by
      unfold executeByType executeRecordMethod APIRegistry.NewMethod
      rfl
    rw [hbt]
    cases hr : handler (i :: rest) args <;> rfl

end Goodoo
